import Mathlib

/-!
Verification of the whichdns packet dissector and query/response correlator.

The definitions below are a shallow embedding of `main.go` of the
network-plane/whichdns repository.  Frames are byte sequences modelled as
`List Nat` (every value delivered by the kernel is a byte, `< 256`; the
definitions are stated over arbitrary naturals and agree with the Go code
on all byte lists).  The Go parsing functions return `(value, ok bool)`
pairs; they are embedded as `Option`-valued functions, `none` standing for
the `ok = false` discard verdict.
-/

namespace Whichdns

/-- Ethernet header length, `ethHeaderLen` in main.go. -/
def ethHeaderLen : Nat := 14

/-- Minimum IP header length, `ipHeaderMin` in main.go. -/
def ipHeaderMin : Nat := 20

/-- UDP header length, `udpHeaderLen` in main.go. -/
def udpHeaderLen : Nat := 8

/-- IP source address offset in the IP header, `ipSrcOffset` in main.go. -/
def ipSrcOffset : Nat := 12

/-- EtherType for IPv4, `ethPIPv4` in main.go. -/
def ethPIPv4 : Nat := 0x0800

/-- IP protocol number for UDP, `ipProtoUDP` in main.go. -/
def ipProtoUDP : Nat := 17

/-- DNS service port, `dnsPort` in main.go. -/
def dnsPort : Nat := 53

/-- Embedding of `parseEthernetFrame` (main.go lines 489-501): require at
least 14 bytes, require EtherType (bytes 12-13, big-endian, the Go local
`etherType`, inlined here) to be 0x0800, and return the bytes after the
Ethernet header. -/
def parseEthernetFrame (frame : List Nat) : Option (List Nat) :=
  if frame.length < ethHeaderLen then none
  else if frame.getD 12 0 * 256 + frame.getD 13 0 ≠ ethPIPv4 then none
  else some (frame.drop ethHeaderLen)

/-- Embedding of `parseIPPacket` (main.go lines 504-521): require at least
20 bytes, require protocol byte 9 to be UDP (17), compute the header
length as (low nibble of byte 0) times 4, require the packet to hold that
header plus a UDP header, and return the bytes after the IP header. -/
def parseIPPacket (ipPacket : List Nat) : Option (List Nat) :=
  if ipPacket.length < ipHeaderMin then none
  else if ipPacket.getD 9 0 ≠ ipProtoUDP then none
  else if ipPacket.length < ipPacket.getD 0 0 % 16 * 4 + udpHeaderLen then none
  else some (ipPacket.drop (ipPacket.getD 0 0 % 16 * 4))

/-- Embedding of `parseUDPPacket` (main.go lines 524-544): require at least
8 bytes, read source and destination ports (big-endian), require source
port 53, read the declared UDP length (bytes 4-5), require it to be at
least the UDP header size and at most the buffer, and return the payload
`udpPacket[8:dataLen]` together with the destination port.  The Go locals
`srcPort`, `dstPort` and `dataLen` are inlined. -/
def parseUDPPacket (udpPacket : List Nat) : Option (List Nat × Nat) :=
  if udpPacket.length < udpHeaderLen then none
  else if udpPacket.getD 0 0 * 256 + udpPacket.getD 1 0 ≠ dnsPort then none
  else if udpPacket.getD 4 0 * 256 + udpPacket.getD 5 0 < udpHeaderLen then none
  else if udpPacket.length < udpPacket.getD 4 0 * 256 + udpPacket.getD 5 0 then
    none
  else
    some ((udpPacket.take (udpPacket.getD 4 0 * 256 + udpPacket.getD 5 0)).drop
        udpHeaderLen,
      udpPacket.getD 2 0 * 256 + udpPacket.getD 3 0)

/-- Dotted-quad rendering of four bytes, the embedding of
`net.IP(ipPacket[12:16]).String()` for a 4-byte address. -/
def ipv4String (a b c d : Nat) : String :=
  toString a ++ "." ++ toString b ++ "." ++ toString c ++ "." ++ toString d

/-- Embedding of `extractDNSIP` (main.go lines 547-573): run the three
layer parsers in order; on success check the IP bytes 12..15 exist and
render the IPv4 source address.  `none` is the code's single discard
verdict (`ok = false`). -/
def extractDNSIP (frame : List Nat) : Option String :=
  match parseEthernetFrame frame with
  | none => none
  | some ipPacket =>
    match parseIPPacket ipPacket with
    | none => none
    | some udpPacket =>
      match parseUDPPacket udpPacket with
      | none => none
      | some _ =>
        if ipPacket.length < ipSrcOffset + 4 then none
        else
          some (ipv4String (ipPacket.getD 12 0) (ipPacket.getD 13 0)
            (ipPacket.getD 14 0) (ipPacket.getD 15 0))

/-- The two run-time faults a Go slice expression can raise: an index
outside the buffer, or a slice with bounds outside the buffer. -/
inductive GoPanic where
  | indexOutOfRange
  | sliceOutOfRange
  deriving DecidableEq

/-- Bounds-checked byte read: the embedding of the Go expression `l[i]`
together with Go's run-time bounds check. -/
def getChecked (l : List Nat) (i : Nat) : Except GoPanic Nat :=
  if i < l.length then Except.ok (l.getD i 0)
  else Except.error GoPanic.indexOutOfRange

/-- Bounds-checked suffix slice: the embedding of the Go expression `l[a:]`
together with Go's run-time bounds check. -/
def dropChecked (l : List Nat) (a : Nat) : Except GoPanic (List Nat) :=
  if a ≤ l.length then Except.ok (l.drop a)
  else Except.error GoPanic.sliceOutOfRange

/-- Bounds-checked slice: the embedding of the Go expression `l[a:b]`
together with Go's run-time bounds check. -/
def sliceChecked (l : List Nat) (a b : Nat) : Except GoPanic (List Nat) :=
  if a ≤ b ∧ b ≤ l.length then Except.ok ((l.take b).drop a)
  else Except.error GoPanic.sliceOutOfRange

/-- `parseEthernetFrame` with every buffer access bounds-checked exactly
where the Go code indexes or slices: any access Go would reject at run
time surfaces as `Except.error`. -/
def parseEthernetFrameChecked (frame : List Nat) :
    Except GoPanic (Option (List Nat)) :=
  if frame.length < ethHeaderLen then Except.ok none
  else
    match getChecked frame 12, getChecked frame 13 with
    | Except.ok b12, Except.ok b13 =>
      if b12 * 256 + b13 ≠ ethPIPv4 then Except.ok none
      else
        match dropChecked frame ethHeaderLen with
        | Except.ok rest => Except.ok (some rest)
        | Except.error e => Except.error e
    | Except.error e, _ => Except.error e
    | _, Except.error e => Except.error e

/-- `parseIPPacket` with every buffer access bounds-checked exactly where
the Go code indexes or slices. -/
def parseIPPacketChecked (ipPacket : List Nat) :
    Except GoPanic (Option (List Nat)) :=
  if ipPacket.length < ipHeaderMin then Except.ok none
  else
    match getChecked ipPacket 9 with
    | Except.error e => Except.error e
    | Except.ok b9 =>
      if b9 ≠ ipProtoUDP then Except.ok none
      else
        match getChecked ipPacket 0 with
        | Except.error e => Except.error e
        | Except.ok b0 =>
          if ipPacket.length < b0 % 16 * 4 + udpHeaderLen then Except.ok none
          else
            match dropChecked ipPacket (b0 % 16 * 4) with
            | Except.ok rest => Except.ok (some rest)
            | Except.error e => Except.error e

/-- `parseUDPPacket` with every buffer access bounds-checked exactly where
the Go code indexes or slices. -/
def parseUDPPacketChecked (udpPacket : List Nat) :
    Except GoPanic (Option (List Nat × Nat)) :=
  if udpPacket.length < udpHeaderLen then Except.ok none
  else
    match getChecked udpPacket 0, getChecked udpPacket 1,
        getChecked udpPacket 2, getChecked udpPacket 3 with
    | Except.ok b0, Except.ok b1, Except.ok b2, Except.ok b3 =>
      if b0 * 256 + b1 ≠ dnsPort then Except.ok none
      else
        match getChecked udpPacket 4, getChecked udpPacket 5 with
        | Except.ok b4, Except.ok b5 =>
          if b4 * 256 + b5 < udpHeaderLen then Except.ok none
          else if udpPacket.length < b4 * 256 + b5 then Except.ok none
          else
            match sliceChecked udpPacket udpHeaderLen (b4 * 256 + b5) with
            | Except.ok payload => Except.ok (some (payload, b2 * 256 + b3))
            | Except.error e => Except.error e
        | Except.error e, _ => Except.error e
        | _, Except.error e => Except.error e
    | Except.error e, _, _, _ => Except.error e
    | _, Except.error e, _, _ => Except.error e
    | _, _, Except.error e, _ => Except.error e
    | _, _, _, Except.error e => Except.error e

/-- `extractDNSIP` with every buffer access bounds-checked exactly where
the Go code indexes or slices. -/
def extractDNSIPChecked (frame : List Nat) : Except GoPanic (Option String) :=
  match parseEthernetFrameChecked frame with
  | Except.error e => Except.error e
  | Except.ok none => Except.ok none
  | Except.ok (some ipPacket) =>
    match parseIPPacketChecked ipPacket with
    | Except.error e => Except.error e
    | Except.ok none => Except.ok none
    | Except.ok (some udpPacket) =>
      match parseUDPPacketChecked udpPacket with
      | Except.error e => Except.error e
      | Except.ok none => Except.ok none
      | Except.ok (some _) =>
        if ipPacket.length < ipSrcOffset + 4 then Except.ok none
        else
          match getChecked ipPacket 12, getChecked ipPacket 13,
              getChecked ipPacket 14, getChecked ipPacket 15 with
          | Except.ok b12, Except.ok b13, Except.ok b14, Except.ok b15 =>
            Except.ok (some (ipv4String b12 b13 b14 b15))
          | Except.error e, _, _, _ => Except.error e
          | _, Except.error e, _, _ => Except.error e
          | _, _, Except.error e, _ => Except.error e
          | _, _, _, Except.error e => Except.error e

lemma getChecked_ok (l : List Nat) (i : Nat) (h : i < l.length) :
    getChecked l i = Except.ok (l.getD i 0) := by
  simp [getChecked, h]

lemma dropChecked_ok (l : List Nat) (a : Nat) (h : a ≤ l.length) :
    dropChecked l a = Except.ok (l.drop a) := by
  simp [dropChecked, h]

lemma sliceChecked_ok (l : List Nat) (a b : Nat) (h1 : a ≤ b)
    (h2 : b ≤ l.length) :
    sliceChecked l a b = Except.ok ((l.take b).drop a) := by
  simp [sliceChecked, h1, h2]

lemma parseEthernetFrameChecked_eq (frame : List Nat) :
    parseEthernetFrameChecked frame = Except.ok (parseEthernetFrame frame) := by
  unfold parseEthernetFrameChecked parseEthernetFrame
  by_cases h : frame.length < ethHeaderLen
  · simp [h]
  · have h14 : ethHeaderLen ≤ frame.length := Nat.le_of_not_lt h
    rw [getChecked_ok frame 12 (by simp [ethHeaderLen] at h14; omega),
      getChecked_ok frame 13 (by simp [ethHeaderLen] at h14; omega),
      dropChecked_ok frame ethHeaderLen h14]
    simp only [h, ite_false, reduceIte]
    split_ifs <;> rfl

lemma parseIPPacketChecked_eq (ipPacket : List Nat) :
    parseIPPacketChecked ipPacket = Except.ok (parseIPPacket ipPacket) := by
  unfold parseIPPacketChecked parseIPPacket
  by_cases h : ipPacket.length < ipHeaderMin
  · simp [h]
  · have h20 : ipHeaderMin ≤ ipPacket.length := Nat.le_of_not_lt h
    rw [getChecked_ok ipPacket 9 (by simp [ipHeaderMin] at h20; omega),
      getChecked_ok ipPacket 0 (by simp [ipHeaderMin] at h20; omega)]
    simp only [if_neg h]
    split_ifs with h9 hl
    · rfl
    · rfl
    · rw [dropChecked_ok ipPacket _ (by omega)]

lemma parseUDPPacketChecked_eq (udpPacket : List Nat) :
    parseUDPPacketChecked udpPacket = Except.ok (parseUDPPacket udpPacket) := by
  unfold parseUDPPacketChecked parseUDPPacket
  by_cases h : udpPacket.length < udpHeaderLen
  · simp [h]
  · have h8 : udpHeaderLen ≤ udpPacket.length := Nat.le_of_not_lt h
    rw [getChecked_ok udpPacket 0 (by simp [udpHeaderLen] at h8; omega),
      getChecked_ok udpPacket 1 (by simp [udpHeaderLen] at h8; omega),
      getChecked_ok udpPacket 2 (by simp [udpHeaderLen] at h8; omega),
      getChecked_ok udpPacket 3 (by simp [udpHeaderLen] at h8; omega),
      getChecked_ok udpPacket 4 (by simp [udpHeaderLen] at h8; omega),
      getChecked_ok udpPacket 5 (by simp [udpHeaderLen] at h8; omega)]
    simp only [if_neg h]
    split_ifs with hp hd hb
    · rfl
    · rfl
    · rfl
    · rw [sliceChecked_ok udpPacket udpHeaderLen _ (by omega) (by omega)]

/-- Claim C1 theorem: for every byte sequence given as the frame, the
dissection function with Go's run-time bounds checks made explicit never
raises an out-of-range fault and returns exactly the verdict of the pure
total dissection function; in particular it terminates (it is a total
function) and its result ranges over the dissection verdicts (`some ip`
for a match, `none` for the discard verdict). -/
theorem c1_bounds_safety (frame : List Nat) :
    extractDNSIPChecked frame = Except.ok (extractDNSIP frame) := by
  unfold extractDNSIPChecked extractDNSIP
  rw [parseEthernetFrameChecked_eq]
  cases heth : parseEthernetFrame frame with
  | none => rfl
  | some ipPacket =>
    dsimp only
    rw [parseIPPacketChecked_eq]
    cases hip : parseIPPacket ipPacket with
    | none => rfl
    | some udpPacket =>
      dsimp only
      rw [parseUDPPacketChecked_eq]
      cases hudp : parseUDPPacket udpPacket with
      | none => rfl
      | some payload =>
        dsimp only
        by_cases hlen : ipPacket.length < ipSrcOffset + 4
        · simp only [if_pos hlen]
        · have h16 : ipSrcOffset + 4 ≤ ipPacket.length := Nat.le_of_not_lt hlen
          rw [getChecked_ok ipPacket 12 (by simp [ipSrcOffset] at h16; omega),
            getChecked_ok ipPacket 13 (by simp [ipSrcOffset] at h16; omega),
            getChecked_ok ipPacket 14 (by simp [ipSrcOffset] at h16; omega),
            getChecked_ok ipPacket 15 (by simp [ipSrcOffset] at h16; omega)]
          simp only [if_neg hlen]


lemma getD_drop (l : List Nat) (n i : Nat) :
    (l.drop n).getD i 0 = l.getD (n + i) 0 := by
  simp [List.getD_eq_getElem?_getD, List.getElem?_drop]

lemma parseEthernetFrame_some {frame ipPacket : List Nat}
    (h : parseEthernetFrame frame = some ipPacket) :
    ethHeaderLen ≤ frame.length ∧
    frame.getD 12 0 * 256 + frame.getD 13 0 = ethPIPv4 ∧
    frame.drop ethHeaderLen = ipPacket := by
  unfold parseEthernetFrame at h
  split_ifs at h with h1 h2 <;>
    first
      | exact Option.noConfusion h
      | exact ⟨Nat.le_of_not_lt h1, not_not.mp h2, Option.some.inj h⟩

lemma parseIPPacket_some {ipPacket udpPacket : List Nat}
    (h : parseIPPacket ipPacket = some udpPacket) :
    ipHeaderMin ≤ ipPacket.length ∧
    ipPacket.getD 9 0 = ipProtoUDP ∧
    ipPacket.getD 0 0 % 16 * 4 + udpHeaderLen ≤ ipPacket.length ∧
    ipPacket.drop (ipPacket.getD 0 0 % 16 * 4) = udpPacket := by
  unfold parseIPPacket at h
  split_ifs at h with h1 h2 h3 <;>
    first
      | exact Option.noConfusion h
      | exact ⟨Nat.le_of_not_lt h1, not_not.mp h2, Nat.le_of_not_lt h3,
          Option.some.inj h⟩

lemma parseUDPPacket_match {udpPacket : List Nat}
    (hlen : udpHeaderLen ≤ udpPacket.length)
    (hport : udpPacket.getD 0 0 * 256 + udpPacket.getD 1 0 = dnsPort)
    (hd8 : udpHeaderLen ≤ udpPacket.getD 4 0 * 256 + udpPacket.getD 5 0)
    (hdlen : udpPacket.getD 4 0 * 256 + udpPacket.getD 5 0 ≤ udpPacket.length) :
    parseUDPPacket udpPacket =
      some ((udpPacket.take (udpPacket.getD 4 0 * 256 + udpPacket.getD 5 0)).drop
          udpHeaderLen,
        udpPacket.getD 2 0 * 256 + udpPacket.getD 3 0) := by
  unfold parseUDPPacket
  split_ifs with h1 h2 h3 h4 <;>
    first
      | rfl
      | omega
      | exact absurd hport h2

lemma parseUDPPacket_nomatch {udpPacket : List Nat}
    (hport : udpPacket.getD 0 0 * 256 + udpPacket.getD 1 0 ≠ dnsPort) :
    parseUDPPacket udpPacket = none := by
  unfold parseUDPPacket
  split_ifs with h1 h2 h3 h4 <;>
    first
      | rfl
      | exact absurd (not_not.mp h2) hport

lemma parseUDPPacket_badlen {udpPacket : List Nat}
    (hbad : udpPacket.getD 4 0 * 256 + udpPacket.getD 5 0 < udpHeaderLen ∨
      udpPacket.length < udpPacket.getD 4 0 * 256 + udpPacket.getD 5 0) :
    parseUDPPacket udpPacket = none := by
  unfold parseUDPPacket
  split_ifs <;> first | rfl | omega

/-- Claim C9 theorem: a frame whose EtherType field (bytes 12-13,
big-endian) is not 0x0800 is always dissected to the discard verdict
(`NoMatch`), regardless of the rest of the frame's content. -/
theorem c9_ethertype_gate (frame : List Nat)
    (h : frame.getD 12 0 * 256 + frame.getD 13 0 ≠ ethPIPv4) :
    extractDNSIP frame = none := by
  unfold extractDNSIP parseEthernetFrame
  split_ifs with h1 h2 <;>
    first
      | rfl
      | exact absurd (not_not.mp h2) h

/-- A frame with EtherType 0x0700: not IPv4, hence `NoMatch`. -/
def nonIPv4Frame : List Nat := List.replicate 60 7

/-- Witness for C9: the concrete frame `nonIPv4Frame` has EtherType
0x0707 which is not 0x0800, and it dissects to the discard verdict. -/
theorem c9_witness :
    nonIPv4Frame.getD 12 0 * 256 + nonIPv4Frame.getD 13 0 ≠ ethPIPv4 ∧
    extractDNSIP nonIPv4Frame = none :=
  ⟨by decide, c9_ethertype_gate nonIPv4Frame (by decide)⟩

/-- Claim C4 theorem: for a frame whose Ethernet and IPv4 layers parse, if
the UDP source port is 53 and the declared UDP length is internally
consistent (at least the UDP header size and at most the remaining
buffer), dissection returns `Match` with the dotted-quad rendering of the
4 bytes at offset 12 of the IPv4 header, which itself starts right after
the 14-byte Ethernet header (frame bytes 26..29); and if the UDP source
port differs from 53, dissection returns the discard verdict `NoMatch`. -/
theorem c4_port_gate (frame ipPacket udpPacket : List Nat)
    (heth : parseEthernetFrame frame = some ipPacket)
    (hip : parseIPPacket ipPacket = some udpPacket) :
    (udpPacket.getD 0 0 * 256 + udpPacket.getD 1 0 = dnsPort →
      udpHeaderLen ≤ udpPacket.getD 4 0 * 256 + udpPacket.getD 5 0 →
      udpPacket.getD 4 0 * 256 + udpPacket.getD 5 0 ≤ udpPacket.length →
      extractDNSIP frame =
        some (ipv4String (frame.getD 26 0) (frame.getD 27 0)
          (frame.getD 28 0) (frame.getD 29 0))) ∧
    (udpPacket.getD 0 0 * 256 + udpPacket.getD 1 0 ≠ dnsPort →
      extractDNSIP frame = none) := by
  obtain ⟨hf14, hety, hdropF⟩ := parseEthernetFrame_some heth
  obtain ⟨hi20, hi9, hihl, hdropI⟩ := parseIPPacket_some hip
  have hip16 : ¬ipPacket.length < ipSrcOffset + 4 := by
    simp only [ipHeaderMin] at hi20
    simp only [ipSrcOffset]
    omega
  have hudplen : udpHeaderLen ≤ udpPacket.length := by
    have := hdropI ▸ (List.length_drop (ipPacket.getD 0 0 % 16 * 4) ipPacket)
    omega
  constructor
  · intro hport hd8 hdlen
    unfold extractDNSIP
    rw [heth]
    dsimp only
    rw [hip]
    dsimp only
    rw [parseUDPPacket_match hudplen hport hd8 hdlen]
    dsimp only
    rw [if_neg hip16]
    have hg : ∀ i : Nat, ipPacket.getD i 0 = frame.getD (14 + i) 0 := by
      intro i
      rw [← hdropF, getD_drop]
      rfl
    rw [hg 12, hg 13, hg 14, hg 15]
  · intro hport
    unfold extractDNSIP
    rw [heth]
    dsimp only
    rw [hip]
    dsimp only
    rw [parseUDPPacket_nomatch hport]

/-- A well-formed Ethernet + IPv4 + UDP frame: EtherType 0x0800, IHL 5,
protocol UDP, source IP 1.1.1.1, UDP source port 53, declared UDP length
8 (consistent with the 8 remaining bytes). -/
def wfFrame : List Nat :=
  List.replicate 12 0 ++ [8, 0] ++
  [69, 0, 0, 28, 0, 0, 0, 0, 64, 17, 0, 0, 1, 1, 1, 1, 192, 168, 0, 2] ++
  [0, 53, 4, 210, 0, 8, 0, 0]

/-- Witness for C4: on the concrete well-formed frame `wfFrame` with UDP
source port 53 and a consistent declared length, dissection returns the
dotted-quad of frame bytes 26..29, namely 1.1.1.1. -/
theorem c4_witness :
    extractDNSIP wfFrame =
      some (ipv4String (wfFrame.getD 26 0) (wfFrame.getD 27 0)
        (wfFrame.getD 28 0) (wfFrame.getD 29 0)) ∧
    ipv4String (wfFrame.getD 26 0) (wfFrame.getD 27 0)
      (wfFrame.getD 28 0) (wfFrame.getD 29 0) = "1.1.1.1" :=
  ⟨(c4_port_gate wfFrame (wfFrame.drop 14) (wfFrame.drop 34)
      (by decide) (by decide)).1 (by decide) (by decide) (by decide),
    by decide⟩


/-- Claim C5 amended theorem: for every frame that passes the Ethernet and
IPv4 checks and whose UDP source port is 53 but whose declared UDP length
is below the UDP header size or above the remaining buffer, dissection
returns the single discard verdict `none` — the same verdict the code
returns for non-matching traffic; the implementation does not have a
`Malformed` verdict distinct from `NoMatch`. -/
theorem c5_amended_malformed_collapsed (frame ipPacket udpPacket : List Nat)
    (heth : parseEthernetFrame frame = some ipPacket)
    (hip : parseIPPacket ipPacket = some udpPacket)
    (hport : udpPacket.getD 0 0 * 256 + udpPacket.getD 1 0 = dnsPort)
    (hbad : udpPacket.getD 4 0 * 256 + udpPacket.getD 5 0 < udpHeaderLen ∨
      udpPacket.length < udpPacket.getD 4 0 * 256 + udpPacket.getD 5 0) :
    extractDNSIP frame = none := by
  unfold extractDNSIP
  rw [heth]
  dsimp only
  rw [hip]
  dsimp only
  rw [parseUDPPacket_badlen hbad]

/-- A frame that passes the Ethernet and IPv4 checks with UDP source port
53 but declared UDP length 0, which is below the UDP header size. -/
def malformedLenFrame : List Nat :=
  List.replicate 12 0 ++ [8, 0] ++
  [69, 0, 0, 28, 0, 0, 0, 0, 64, 17, 0, 0, 10, 0, 0, 1, 10, 0, 0, 2] ++
  [0, 53, 0, 80, 0, 0, 0, 0]

/-- A well-formed frame identical in shape but with UDP source port 80 and
a consistent declared length: ordinary non-matching traffic. -/
def nonMatchingPortFrame : List Nat :=
  List.replicate 12 0 ++ [8, 0] ++
  [69, 0, 0, 28, 0, 0, 0, 0, 64, 17, 0, 0, 10, 0, 0, 1, 10, 0, 0, 2] ++
  [0, 80, 0, 53, 0, 8, 0, 0]

/-- Counterexample for claim C5 as stated: a frame that passes the
Ethernet and IPv4 checks with source port 53 and an inconsistent declared
UDP length (0, below the header size) dissects to exactly the same
verdict as a non-matching frame with source port 80 — the code has no
`Malformed` verdict distinct from `NoMatch`. -/
theorem c5_counterexample :
    parseEthernetFrame malformedLenFrame = some (malformedLenFrame.drop 14) ∧
    parseIPPacket (malformedLenFrame.drop 14) =
      some (malformedLenFrame.drop 34) ∧
    (malformedLenFrame.drop 34).getD 0 0 * 256 +
      (malformedLenFrame.drop 34).getD 1 0 = dnsPort ∧
    (malformedLenFrame.drop 34).getD 4 0 * 256 +
      (malformedLenFrame.drop 34).getD 5 0 < udpHeaderLen ∧
    extractDNSIP malformedLenFrame = extractDNSIP nonMatchingPortFrame ∧
    extractDNSIP malformedLenFrame = none := by
  decide

/-- Witness for the amended C5: the concrete malformed-length frame
dissects to the discard verdict. -/
theorem c5_witness : extractDNSIP malformedLenFrame = none :=
  c5_amended_malformed_collapsed malformedLenFrame (malformedLenFrame.drop 14)
    (malformedLenFrame.drop 34) (by decide) (by decide) (by decide)
    (Or.inl (by decide))

/-- A frame whose IPv4 IHL nibble is 0: byte 14 of the frame (byte 0 of
the IP header) is 0x00, so the computed header length is 0 and the bytes
read as the UDP header are the IP header bytes themselves. -/
def ihlZeroFrame : List Nat :=
  List.replicate 12 0 ++ [8, 0] ++
  [0, 53, 0, 0, 0, 20, 0, 0, 0, 17, 0, 0, 9, 9, 9, 9, 0, 0, 0, 0]

/-- Claim C10 theorem: the dissector never checks that the IHL field is at
least 5.  On `ihlZeroFrame` the IHL nibble is 0, `parseIPPacket` succeeds
and hands back the whole IP packet as the alleged UDP packet (the two
headers coincide), and the frame still dissects to `Match` with source
address 9.9.9.9. -/
theorem c10_ihl_not_validated :
    ihlZeroFrame.getD 14 0 % 16 = 0 ∧
    parseIPPacket (ihlZeroFrame.drop 14) = some (ihlZeroFrame.drop 14) ∧
    extractDNSIP ihlZeroFrame = some "9.9.9.9" := by
  decide


/-- The fixed capture timeout, `captureTimeout` (10 seconds) in main.go,
in milliseconds. -/
def captureTimeoutMs : Nat := 10000

/-- Result of one `readPacket` call in one iteration of the capture loop
(main.go lines 246-271): a frame, no data currently queued (`nil, nil`),
or a fatal read error. -/
inductive PollResult where
  | frame (bytes : List Nat)
  | noData
  | readErr
  deriving DecidableEq

/-- One iteration of the capture loop: the elapsed time (milliseconds
since the goroutine recorded `startTime`) observed by the
`time.Since(startTime)` check at the top of the iteration, and the result
of the `readPacket` call of that iteration. -/
structure PollEvent where
  time : Nat
  res : PollResult
  deriving DecidableEq

/-- A message sent by the capture goroutine before it returns (main.go
lines 243-272): a DNS response IP on `dnsResponseCh`, the error
`packet capture timeout` on `errorCh` when the deadline has elapsed, or
the error `failed to read packet` on `errorCh`. -/
inductive CapMsg where
  | dnsResponse (ip : String)
  | captureTimeout
  | readFailed
  deriving DecidableEq

/-- Embedding of the capture goroutine (main.go lines 243-272) as the list
of messages it sends, given the trace of its loop iterations.  Each
iteration first checks `time.Since(startTime) > captureTimeout`, then
reads a packet; a read error or a frame for which `extractDNSIP` matches
causes one send followed by `return`; otherwise the loop continues.  A
trace that ends before any send yields the empty list (the real loop
would keep polling). -/
def captureSends : List PollEvent → List (Nat × CapMsg)
  | [] => []
  | e :: rest =>
    if captureTimeoutMs < e.time then [(e.time, CapMsg.captureTimeout)]
    else
      match e.res with
      | PollResult.readErr => [(e.time, CapMsg.readFailed)]
      | PollResult.noData => captureSends rest
      | PollResult.frame bs =>
        match extractDNSIP bs with
        | some ip => [(e.time, CapMsg.dnsResponse ip)]
        | none => captureSends rest

/-- The single outcome of a run as observed at the `select` (main.go lines
299-348): the responder address (exit 0), a capture read failure (exit 2),
the deadline-elapsed outcome (exit 2, either the goroutine's
`packet capture timeout` message or the `time.After` branch), or a DNS
lookup failure (exit 2, main.go lines 275-289). -/
inductive Outcome where
  | responder (ip : String)
  | captureFailed
  | timedOut
  | queryFailed (cause : String)
  deriving DecidableEq

/-- Embedding of the `select` statement (main.go lines 299-348): the
caller observes the first (and only) message the capture goroutine sends;
if the goroutine never sends, the `time.After` branch fires and the run
times out. -/
def observe : List (Nat × CapMsg) → Outcome
  | (_, CapMsg.dnsResponse ip) :: _ => Outcome.responder ip
  | (_, CapMsg.readFailed) :: _ => Outcome.captureFailed
  | (_, CapMsg.captureTimeout) :: _ => Outcome.timedOut
  | [] => Outcome.timedOut

/-- An event the capture loop passes over without sending anything: it is
observed at or before the deadline and is either `noData` or a frame that
dissects to the discard verdict. -/
def quietEvent (e : PollEvent) : Bool :=
  decide (e.time ≤ captureTimeoutMs) &&
    match e.res with
    | PollResult.noData => true
    | PollResult.frame bs => (extractDNSIP bs).isNone
    | PollResult.readErr => false

/-- An event that is neither a read error nor a matching frame, at any
time: in a run with no matching frame and no fatal error every loop
iteration is of this kind. -/
def benignEvent (e : PollEvent) : Bool :=
  match e.res with
  | PollResult.noData => true
  | PollResult.frame bs => (extractDNSIP bs).isNone
  | PollResult.readErr => false

/-- Consecutive loop iterations are at most `p` milliseconds apart: one
capture-loop polling interval (a read plus the 1 ms idle sleep) bounds the
gap between successive top-of-loop deadline checks. -/
def gapsWithin (p : Nat) : List PollEvent → Bool
  | [] => true
  | [_] => true
  | a :: b :: rest => decide (b.time ≤ a.time + p) && gapsWithin p (b :: rest)

lemma captureSends_cons_quiet (e : PollEvent) (rest : List PollEvent)
    (h : quietEvent e = true) :
    captureSends (e :: rest) = captureSends rest := by
  obtain ⟨t, r⟩ := e
  unfold quietEvent at h
  rw [Bool.and_eq_true, decide_eq_true_eq] at h
  obtain ⟨ht, hres⟩ := h
  cases r with
  | noData => simp [captureSends, Nat.not_lt.mpr ht]
  | readErr => simp at hres
  | frame bs =>
    simp only at hres
    rw [Option.isNone_iff_eq_none] at hres
    simp [captureSends, Nat.not_lt.mpr ht, hres]

lemma captureSends_append_quiet (pre rest : List PollEvent)
    (h : pre.all quietEvent = true) :
    captureSends (pre ++ rest) = captureSends rest := by
  induction pre with
  | nil => rfl
  | cons e pre ih =>
    rw [List.all_cons, Bool.and_eq_true] at h
    rw [List.cons_append, captureSends_cons_quiet e _ h.1, ih h.2]

lemma captureSends_length_le_one (trace : List PollEvent) :
    (captureSends trace).length ≤ 1 := by
  induction trace with
  | nil => simp [captureSends]
  | cons e rest ih =>
    obtain ⟨t, r⟩ := e
    by_cases ht : captureTimeoutMs < t
    · simp [captureSends, ht]
    · cases r with
      | readErr => simp [captureSends, ht]
      | noData => simpa [captureSends, ht] using ih
      | frame bs =>
        cases hm : extractDNSIP bs with
        | none => simpa [captureSends, ht, hm] using ih
        | some ip => simp [captureSends, ht, hm]

lemma captureSends_first_match (pre post : List PollEvent) (t : Nat)
    (bs : List Nat) (ip : String)
    (hpre : pre.all quietEvent = true)
    (ht : t ≤ captureTimeoutMs)
    (hm : extractDNSIP bs = some ip) :
    captureSends (pre ++ { time := t, res := PollResult.frame bs } :: post) =
      [(t, CapMsg.dnsResponse ip)] := by
  rw [captureSends_append_quiet pre _ hpre]
  simp [captureSends, Nat.not_lt.mpr ht, hm]


/-- The attempt numbers of the DNS lookup loop, `for i := 1; i <= 4; i++`
(main.go line 275). -/
def queryAttempts : List Nat := [1, 2, 3, 4]

/-- Embedding of the DNS lookup loop (main.go lines 275-289) over the
remaining attempt numbers, where `res i` is the outcome of
`net.LookupHost` at attempt `i` (`some cause` = failure).  Returns the
attempts actually performed and, when one failed, the failing attempt and
its cause; the loop exits the process at the first failure, so no later
attempt is performed. -/
def queryLoop : List Nat → (Nat → Option String) → List Nat × Option (Nat × String)
  | [], _ => ([], none)
  | i :: is, res =>
    match res i with
    | some cause => ([i], some (i, cause))
    | none => ((queryLoop is res).1.cons i, (queryLoop is res).2)

/-- The whole query driver: the four sequential lookups of main.go lines
275-289. -/
def queryDriver (res : Nat → Option String) : List Nat × Option (Nat × String) :=
  queryLoop queryAttempts res

/-- The message logged when a lookup fails (main.go line 282,
`log.Printf("DNS lookup failed: %v", err)`): it interpolates only the
cause. -/
def lookupFailureMessage (cause : String) : String :=
  "DNS lookup failed: " ++ cause

/-- The user-visible error output of the query driver as a function of its
result: on failure the code logs `lookupFailureMessage` of the cause
(main.go line 282); the attempt index does not appear in it. -/
def surfacedQueryFailure : Option (Nat × String) → Option String
  | none => none
  | some p => some (lookupFailureMessage p.2)

/-- Exit code used when a lookup fails, `os.Exit(2)` (main.go line 287). -/
def queryFailureExitCode : Nat := 2

/-- Embedding of the run outcome seen by the caller: the main goroutine
performs the four lookups first (exiting with code 2 on the first
failure, main.go lines 275-289) and only then enters the `select`
(main.go lines 299-348) where it observes the capture goroutine. -/
def runCorrelator (res : Nat → Option String) (trace : List PollEvent) : Outcome :=
  match (queryDriver res).2 with
  | some p => Outcome.queryFailed p.2
  | none => observe (captureSends trace)

/-- Claim C2 theorem: the capture goroutine sends at most one message in
any run (third conjunct, quantified over every trace), and in a run whose
quiet prefix is followed by a matching frame at time `t1` within the
deadline — even when a second matching frame arrives later — the sends
are exactly the single first match, and the caller observes exactly that
match as the run outcome. -/
theorem c2_single_outcome (pre mid post : List PollEvent) (t1 t2 : Nat)
    (bs1 bs2 : List Nat) (ip1 ip2 : String)
    (hpre : pre.all quietEvent = true)
    (ht1 : t1 ≤ captureTimeoutMs)
    (hm1 : extractDNSIP bs1 = some ip1)
    (hm2 : extractDNSIP bs2 = some ip2) :
    captureSends (pre ++ { time := t1, res := PollResult.frame bs1 } ::
        (mid ++ { time := t2, res := PollResult.frame bs2 } :: post)) =
      [(t1, CapMsg.dnsResponse ip1)] ∧
    observe (captureSends (pre ++ { time := t1, res := PollResult.frame bs1 } ::
        (mid ++ { time := t2, res := PollResult.frame bs2 } :: post))) =
      Outcome.responder ip1 ∧
    ∀ tr : List PollEvent, (captureSends tr).length ≤ 1 := by
  have h1 := captureSends_first_match pre
    (mid ++ { time := t2, res := PollResult.frame bs2 } :: post) t1 bs1 ip1
    hpre ht1 hm1
  exact ⟨h1, by rw [h1]; rfl, captureSends_length_le_one⟩

/-- Witness for C2: a concrete trace with a quiet iteration, a matching
frame at 5 ms and a second matching frame at 6 ms yields exactly one
send, the first match. -/
theorem c2_witness :
    captureSends ([{ time := 1, res := PollResult.noData }] ++
        { time := 5, res := PollResult.frame wfFrame } ::
        ([] ++ { time := 6, res := PollResult.frame wfFrame } :: [])) =
      [(5, CapMsg.dnsResponse "1.1.1.1")] ∧
    observe (captureSends ([{ time := 1, res := PollResult.noData }] ++
        { time := 5, res := PollResult.frame wfFrame } ::
        ([] ++ { time := 6, res := PollResult.frame wfFrame } :: []))) =
      Outcome.responder "1.1.1.1" ∧
    ∀ tr : List PollEvent, (captureSends tr).length ≤ 1 :=
  c2_single_outcome [{ time := 1, res := PollResult.noData }] [] [] 5 6
    wfFrame wfFrame "1.1.1.1" "1.1.1.1" (by decide) (by decide) (by decide)
    (by decide)

/-- Claim C7 amended theorem: the query driver performs exactly the four
attempts 1,2,3,4 in order when every lookup succeeds; the first failing
attempt `k` stops the loop (only attempts 1..k are performed, none is
retried), is fatal to the run with exit code 2, and the surfaced error
message contains the cause but is `lookupFailureMessage cause`, a
function of the cause alone — the attempt index is not part of it. -/
theorem c7_amended_first_failure_aborts (res : Nat → Option String) :
    ((queryAttempts.all fun i => (res i).isNone) = true →
      queryDriver res = ([1, 2, 3, 4], none)) ∧
    (∀ k cause, res k = some cause →
      ((List.range' 1 (k - 1)).all fun i => (res i).isNone) = true →
      1 ≤ k → k ≤ 4 →
      queryDriver res = (List.range' 1 k, some (k, cause)) ∧
      surfacedQueryFailure (queryDriver res).2 =
        some (lookupFailureMessage cause) ∧
      queryFailureExitCode = 2) := by
  constructor
  · intro h
    simp only [queryAttempts, List.all_cons, List.all_nil, Bool.and_eq_true,
      Option.isNone_iff_eq_none] at h
    simp [queryDriver, queryAttempts, queryLoop, h.1, h.2.1, h.2.2.1, h.2.2.2.1]
  · intro k cause hk hprev hk1 hk4
    have key : queryDriver res = (List.range' 1 k, some (k, cause)) := by
      interval_cases k
      · simp [queryDriver, queryAttempts, queryLoop, hk, List.range']
      · simp only [List.range', List.all_cons, List.all_nil, Bool.and_eq_true,
          Option.isNone_iff_eq_none] at hprev
        simp [queryDriver, queryAttempts, queryLoop, hk, hprev.1, List.range']
      · simp only [List.range', List.all_cons, List.all_nil, Bool.and_eq_true,
          Option.isNone_iff_eq_none] at hprev
        simp [queryDriver, queryAttempts, queryLoop, hk, hprev.1, hprev.2.1,
          List.range']
      · simp only [List.range', List.all_cons, List.all_nil, Bool.and_eq_true,
          Option.isNone_iff_eq_none] at hprev
        simp [queryDriver, queryAttempts, queryLoop, hk, hprev.1, hprev.2.1,
          hprev.2.2.1, List.range']
    refine ⟨key, ?_, rfl⟩
    rw [key]
    rfl

/-- Outcomes of a run whose first lookup fails with cause
`lookup refused`. -/
def resFailFirst : Nat → Option String := fun i =>
  if i = 1 then some "lookup refused" else none

/-- Outcomes of a run whose third lookup fails with the same cause, the
first two succeeding. -/
def resFailThird : Nat → Option String := fun i =>
  if i = 3 then some "lookup refused" else none

/-- Counterexample for claim C7 as stated: two runs that fail at different
attempt indices (1 and 3) with the same cause surface exactly the same
error output, so the failing attempt index is not surfaced. -/
theorem c7_counterexample :
    (queryDriver resFailFirst).2 = some (1, "lookup refused") ∧
    (queryDriver resFailThird).2 = some (3, "lookup refused") ∧
    surfacedQueryFailure (queryDriver resFailFirst).2 =
      surfacedQueryFailure (queryDriver resFailThird).2 := by
  decide

/-- Witness for the amended C7: with the third lookup failing, exactly
attempts 1,2,3 are performed, the run is fatal with exit code 2, and the
surfaced message is a function of the cause only. -/
theorem c7_witness :
    queryDriver resFailThird = ([1, 2, 3], some (3, "lookup refused")) ∧
    surfacedQueryFailure (queryDriver resFailThird).2 =
      some (lookupFailureMessage "lookup refused") ∧
    queryFailureExitCode = 2 :=
  (c7_amended_first_failure_aborts resFailThird).2 3 "lookup refused"
    (by decide) (by decide) (by decide) (by decide)


lemma captureSends_timeout_aux (pollMs : Nat) (trace : List PollEvent) :
    trace.all benignEvent = true →
    gapsWithin pollMs trace = true →
    trace.any (fun e => decide (captureTimeoutMs < e.time)) = true →
    (∀ e ∈ trace.head?, e.time ≤ captureTimeoutMs + pollMs) →
    ∃ t, captureSends trace = [(t, CapMsg.captureTimeout)] ∧
      captureTimeoutMs < t ∧ t ≤ captureTimeoutMs + pollMs := by
  induction trace with
  | nil => intro _ _ hany _; simp at hany
  | cons e rest ih =>
    intro hben hgap hany hhead
    rw [List.all_cons, Bool.and_eq_true] at hben
    by_cases ht : captureTimeoutMs < e.time
    · refine ⟨e.time, ?_, ht, hhead e (by simp)⟩
      obtain ⟨tt, r⟩ := e
      simp only at ht
      simp [captureSends, ht]
    · have hq : quietEvent e = true := by
        unfold quietEvent
        rw [Bool.and_eq_true, decide_eq_true_eq]
        refine ⟨Nat.le_of_not_lt ht, ?_⟩
        have hb := hben.1
        unfold benignEvent at hb
        exact hb
      rw [captureSends_cons_quiet e rest hq]
      cases rest with
      | nil => simp [ht] at hany
      | cons b rest2 =>
        have hgap2 : b.time ≤ e.time + pollMs ∧
            gapsWithin pollMs (b :: rest2) = true := by
          unfold gapsWithin at hgap
          rw [Bool.and_eq_true, decide_eq_true_eq] at hgap
          exact hgap
        have hany2 : (b :: rest2).any
            (fun e => decide (captureTimeoutMs < e.time)) = true := by
          simp only [List.any_cons] at hany
          rw [Bool.or_eq_true] at hany
          cases hany with
          | inl hx => rw [decide_eq_true_eq] at hx; exact absurd hx ht
          | inr hx => exact hx
        refine ih hben.2 hgap2.2 hany2 ?_
        intro x hx
        simp only [List.head?_cons, Option.mem_def, Option.some.injEq] at hx
        subst hx
        have := hgap2.1
        have := Nat.le_of_not_lt ht
        omega

/-- Claim C3 theorem: the run deadline is the fixed 10-second timeout
measured from the capture goroutine's start and is the constant the loop
compares against on every iteration (never extended).  In a run whose
iterations contain no matching frame and no read error, in which
successive top-of-loop checks are at most one polling interval `pollMs`
apart, and whose polling continues past the deadline, the goroutine sends
exactly the timeout outcome, at a time strictly after the deadline and at
most the deadline plus one polling interval, and the caller observes the
`TimedOut` outcome. -/
theorem c3_deadline_enforced (e0 : PollEvent) (rest : List PollEvent)
    (pollMs : Nat)
    (h0 : e0.time ≤ captureTimeoutMs)
    (hben : (e0 :: rest).all benignEvent = true)
    (hgap : gapsWithin pollMs (e0 :: rest) = true)
    (hhit : (e0 :: rest).any
      (fun e => decide (captureTimeoutMs < e.time)) = true) :
    captureTimeoutMs = 10000 ∧
    ∃ t, captureSends (e0 :: rest) = [(t, CapMsg.captureTimeout)] ∧
      captureTimeoutMs < t ∧ t ≤ captureTimeoutMs + pollMs ∧
      observe (captureSends (e0 :: rest)) = Outcome.timedOut := by
  obtain ⟨t, hs, h1, h2⟩ := captureSends_timeout_aux pollMs (e0 :: rest)
    hben hgap hhit
    (by
      intro x hx
      simp only [List.head?_cons, Option.mem_def, Option.some.injEq] at hx
      subst hx
      omega)
  exact ⟨rfl, t, hs, h1, h2, by rw [hs]; rfl⟩

/-- Witness for C3: a concrete benign trace polling at 0 ms and 10001 ms
with a 10001 ms polling-interval bound times out at 10001 ms. -/
theorem c3_witness :
    captureTimeoutMs = 10000 ∧
    ∃ t, captureSends ({ time := 0, res := PollResult.noData } ::
        [{ time := 10001, res := PollResult.noData }]) =
        [(t, CapMsg.captureTimeout)] ∧
      captureTimeoutMs < t ∧ t ≤ captureTimeoutMs + 10001 ∧
      observe (captureSends ({ time := 0, res := PollResult.noData } ::
        [{ time := 10001, res := PollResult.noData }])) = Outcome.timedOut :=
  c3_deadline_enforced { time := 0, res := PollResult.noData }
    [{ time := 10001, res := PollResult.noData }] 10001
    (by decide) (by decide) (by decide) (by decide)

/-- Claim C8 theorem: completion of the query driver is not required for
the correlator to commit to a match.  The matching frame's arrival time
`t` is unconstrained relative to the instant query issuance completes —
before, during, or after it — and whenever the four lookups succeed the
run resolves to exactly that match. -/
theorem c8_match_wins_regardless_of_query_timing (res : Nat → Option String)
    (pre post : List PollEvent) (t : Nat) (bs : List Nat) (ip : String)
    (hq : (queryDriver res).2 = none)
    (hpre : pre.all quietEvent = true)
    (ht : t ≤ captureTimeoutMs)
    (hm : extractDNSIP bs = some ip) :
    runCorrelator res
      (pre ++ { time := t, res := PollResult.frame bs } :: post) =
      Outcome.responder ip := by
  unfold runCorrelator
  rw [hq]
  dsimp only
  rw [captureSends_first_match pre post t bs ip hpre ht hm]
  rfl

/-- Witness for C8: with all lookups succeeding and a matching frame at
2 ms, the run resolves to the responder 1.1.1.1. -/
theorem c8_witness :
    runCorrelator (fun _ => none)
      ([] ++ { time := 2, res := PollResult.frame wfFrame } :: []) =
      Outcome.responder "1.1.1.1" :=
  c8_match_wins_regardless_of_query_timing (fun _ => none) [] [] 2 wfFrame
    "1.1.1.1" (by decide) (by decide) (by decide) (by decide)

/-- Whether `runDNSCheck` creates the progress bar and immediately renders
it to standard output (main.go lines 177-181): the guard is `!debug`
alone; the `iponly` flag is not consulted. -/
def progressBarEnabled (ipOnlyF debugF : Bool) : Bool := !debugF

/-- The output of the initial `progressBar.Render()` call (main.go lines
92-103, with `current = 0`, `total = 19`, `barLength = 50`): a carriage
return, the empty 50-cell bar, and the percentage `0.00%`, written to
standard output by `fmt.Printf`. -/
def initialBarRender : String :=
  "\r[" ++ String.mk (List.replicate 50 (Char.ofNat 45)) ++ "] 0.00%"

/-- The first write `runDNSCheck` makes to standard output on a run that
ends in a successful capture of `ip` (main.go lines 177-181 and 309-314):
with debug off it is the initial progress-bar render; with debug on the
progress bar is skipped and the first stdout write is the result line. -/
def firstStdoutWrite (ipOnlyF debugF : Bool) (ip : String) : String :=
  if progressBarEnabled ipOnlyF debugF then initialBarRender
  else ip ++ "\n"

/-- Theorem recording the C6 code bug: in machine-readable mode
(`--iponly`, debug off) the progress bar is still enabled; the first
stdout write of a successful run is the progress-bar render, which is
neither the bare IP line nor empty — so stdout does not consist of
exactly one line containing only the IP address (and is nonempty even on
failing runs). -/
theorem c6_progress_bar_pollutes_iponly_stdout :
    progressBarEnabled true false = true ∧
    firstStdoutWrite true false "192.168.178.21" = initialBarRender ∧
    initialBarRender ≠ "192.168.178.21" ++ "\n" ∧
    initialBarRender ≠ "" :=
  ⟨rfl, rfl, by decide, by decide⟩

end Whichdns
